import Mathlib

/-!
# Verification of `lab_5_scraper/scraper.py`

A shallow embedding of the crawler's configuration validation
(`Config._validate_config_content`, `Config.__init__`,
`Config._extract_config_content`, the accessor stubs) together with
faithful embeddings of the components whose bodies are docstring-only
stubs in the source (`Crawler.find_articles`, `HTMLParser.parse`,
`HTMLParser.unify_date_format` — in Python a docstring-only body is a
complete function returning `None`), and proofs of the behavioural
claims about them.

Python JSON values (the result of `json.load`) are embedded as
`JsonValue`; Python's type-test semantics (`isinstance`), where `bool`
is a subclass of `int`, are embedded explicitly.
-/

namespace Scraper

/-- A value produced by Python's `json.load`: `None`, `bool`, `int`,
`float`, `str`, `list`, or `dict`.  Floats carry a rational payload;
the validator only ever type-tests them. -/
inductive JsonValue where
  | null : JsonValue
  | bool (b : Bool) : JsonValue
  | int (n : Int) : JsonValue
  | float (q : ℚ) : JsonValue
  | str (s : String) : JsonValue
  | arr (xs : List JsonValue) : JsonValue
  | obj (fields : List (String × JsonValue)) : JsonValue

/-- `isinstance(v, list)`. -/
def isinstance_list : JsonValue → Bool
  | .arr _ => true
  | _ => false

/-- `isinstance(v, dict)`. -/
def isinstance_dict : JsonValue → Bool
  | .obj _ => true
  | _ => false

/-- `isinstance(v, str)`. -/
def isinstance_str : JsonValue → Bool
  | .str _ => true
  | _ => false

/-- `isinstance(v, bool)`. -/
def isinstance_bool : JsonValue → Bool
  | .bool _ => true
  | _ => false

/-- `isinstance(v, int)`.  In Python `bool` is a subclass of `int`, so
`isinstance(True, int)` is `True`. -/
def isinstance_int : JsonValue → Bool
  | .int _ => true
  | .bool _ => true
  | _ => false

/-- The integer a Python `int` or `bool` denotes in comparisons
(`True == 1`, `False == 0`); `0` on other constructors, which the
validator never compares. -/
def intValue : JsonValue → Int
  | .int n => n
  | .bool b => if b then 1 else 0
  | _ => 0

/-- The items of a JSON array; `[]` on other constructors (the
validator iterates `seed_urls` only after the list check passed). -/
def jsonItems : JsonValue → List JsonValue
  | .arr xs => xs
  | _ => []

/-- `c1 :: cs` starts with the pattern `p1 :: ps` (character-list
version of regex-free matching used below). -/
def charsStart : List Char → List Char → Bool
  | [], _ => true
  | _ :: _, [] => false
  | p :: ps, c :: cs => p == c && charsStart ps cs

/-- `re.match("https?://(www.)?", url)` succeeds on a string `url`:
since the group `(www.)?` is optional, the anchored match succeeds
exactly when the string starts with `http://` or `https://`. -/
def matchesSeedPattern (s : String) : Bool :=
  charsStart "http://".toList s.toList || charsStart "https://".toList s.toList

/-- The exceptions `Config._validate_config_content` can raise.
`ValueError` is the generic `raise ValueError("Seed URLs should be a
list of strings")`; `TypeError` is what `re.match` raises when handed
a non-string entry. -/
inductive ConfigError where
  | ValueError : ConfigError
  | TypeError : ConfigError
  | IncorrectSeedURLError : ConfigError
  | NumberOfArticlesOutOfRangeError : ConfigError
  | IncorrectNumberOfArticlesError : ConfigError
  | IncorrectHeadersError : ConfigError
  | IncorrectEncodingError : ConfigError
  | IncorrectTimeoutError : ConfigError
  | IncorrectVerifyError : ConfigError
deriving DecidableEq

/-- The constants imported from `core_utils.constants` (that module is
outside this repository's sources, so the limits are parameters). -/
structure Limits where
  NUM_ARTICLES_UPPER_LIMIT : Int
  TIMEOUT_LOWER_LIMIT : Int
  TIMEOUT_UPPER_LIMIT : Int

/-- The parsed configuration document: the seven fields the code reads
from `config_dict` (claims concern documents with all fields present;
a missing field is a fatal `KeyError` outside their scope). -/
structure ConfigDoc where
  seed_urls : JsonValue
  total_articles_to_find_and_parse : JsonValue
  headers : JsonValue
  encoding : JsonValue
  timeout : JsonValue
  should_verify_certificate : JsonValue
  headless_mode : JsonValue

/-- The loop `for url in config_dict["seed_urls"]: if not
re.match("https?://(www.)?", url): raise IncorrectSeedURLError()`.
A non-string entry makes `re.match` raise `TypeError` before the
guard can fire. -/
def checkSeedEntries : List JsonValue → Option ConfigError
  | [] => none
  | .str s :: rest =>
      if matchesSeedPattern s then checkSeedEntries rest
      else some .IncorrectSeedURLError
  | _ :: _ => some .TypeError

/-- `Config._validate_config_content` (scraper.py lines 97-121):
the sequential chain of checks, returning the first raised exception,
or `none` when every check passes. -/
def validate_config_content (L : Limits) (d : ConfigDoc) : Option ConfigError :=
  if isinstance_list d.seed_urls = false then some .ValueError
  else match checkSeedEntries (jsonItems d.seed_urls) with
  | some e => some e
  | none =>
  if (isinstance_int d.total_articles_to_find_and_parse &&
      decide (0 < intValue d.total_articles_to_find_and_parse)) = false then
    some .IncorrectNumberOfArticlesError
  else if decide (L.NUM_ARTICLES_UPPER_LIMIT <
      intValue d.total_articles_to_find_and_parse) = true then
    some .NumberOfArticlesOutOfRangeError
  else if isinstance_dict d.headers = false then some .IncorrectHeadersError
  else if isinstance_str d.encoding = false then some .IncorrectEncodingError
  else if (isinstance_int d.timeout &&
      decide (L.TIMEOUT_LOWER_LIMIT < intValue d.timeout) &&
      decide (intValue d.timeout < L.TIMEOUT_UPPER_LIMIT)) = false then
    some .IncorrectTimeoutError
  else if isinstance_bool d.should_verify_certificate = false then
    some .IncorrectVerifyError
  else none

/-- The `Config` object.  The Python object stores `path_to_config`;
`doc` stands for the document that path refers to (the file content
determines all observable behaviour). -/
structure Config where
  doc : ConfigDoc

/-- `Config.__init__` = store the path, then run
`_validate_config_content` (the `_extract_config_content()` call is
commented out in the source); construction fails exactly when
validation raises. -/
def Config.load (L : Limits) (d : ConfigDoc) : Except ConfigError Config :=
  match validate_config_content L d with
  | some e => .error e
  | none => .ok ⟨d⟩

/-- `ConfigDTO` from `core_utils.config_dto`: the seven raw values in
the order `_extract_config_content` passes them. -/
structure ConfigDTO where
  seed_urls : JsonValue
  total_articles_to_find_and_parse : JsonValue
  headers : JsonValue
  encoding : JsonValue
  timeout : JsonValue
  should_verify_certificate : JsonValue
  headless_mode : JsonValue

/-- `Config._extract_config_content` (scraper.py lines 78-95): rereads
the document and packs the seven fields into a `ConfigDTO`. -/
def Config.extract_config_content (c : Config) : ConfigDTO :=
  { seed_urls := c.doc.seed_urls
    total_articles_to_find_and_parse := c.doc.total_articles_to_find_and_parse
    headers := c.doc.headers
    encoding := c.doc.encoding
    timeout := c.doc.timeout
    should_verify_certificate := c.doc.should_verify_certificate
    headless_mode := c.doc.headless_mode }

/-- `Config.get_seed_urls` (scraper.py lines 123-129): the body is a
docstring-only stub, so the call returns Python `None`. -/
def Config.get_seed_urls (_c : Config) : Option JsonValue := none

/-- `Config.get_num_articles`: docstring-only stub, returns `None`. -/
def Config.get_num_articles (_c : Config) : Option JsonValue := none

/-- `Config.get_headers`: docstring-only stub, returns `None`. -/
def Config.get_headers (_c : Config) : Option JsonValue := none

/-- `Config.get_encoding`: docstring-only stub, returns `None`. -/
def Config.get_encoding (_c : Config) : Option JsonValue := none

/-- `Config.get_timeout`: docstring-only stub, returns `None`. -/
def Config.get_timeout (_c : Config) : Option JsonValue := none

/-- `Config.get_verify_certificate`: docstring-only stub, returns `None`. -/
def Config.get_verify_certificate (_c : Config) : Option JsonValue := none

/-- `Config.get_headless_mode`: docstring-only stub, returns `None`. -/
def Config.get_headless_mode (_c : Config) : Option JsonValue := none

/-- A seed entry passes the loop body: it is a string matching the
pattern. -/
def goodSeed : JsonValue → Bool
  | .str s => matchesSeedPattern s
  | _ => false

/-- Declarative §4.1 rule 1: `seed_urls` is a list whose entries are
all pattern-matching strings. -/
def seed_urls_rule (v : JsonValue) : Bool :=
  isinstance_list v && (jsonItems v).all goodSeed

/-- Declarative §4.1 rule 2: a positive integer (Python semantics:
`isinstance(v, int) and v > 0`). -/
def num_articles_rule (v : JsonValue) : Bool :=
  isinstance_int v && decide (0 < intValue v)

/-- Declarative §4.1 rule 2b: does not exceed the upper limit. -/
def num_articles_range_rule (L : Limits) (v : JsonValue) : Bool :=
  decide (intValue v ≤ L.NUM_ARTICLES_UPPER_LIMIT)

/-- Declarative §4.1 rule 3: headers are a mapping. -/
def headers_rule (v : JsonValue) : Bool :=
  isinstance_dict v

/-- Declarative §4.1 rule 4: encoding is a string. -/
def encoding_rule (v : JsonValue) : Bool :=
  isinstance_str v

/-- Declarative §4.1 rule 5: an integer strictly inside the open
interval of limits. -/
def timeout_rule (L : Limits) (v : JsonValue) : Bool :=
  isinstance_int v && decide (L.TIMEOUT_LOWER_LIMIT < intValue v) &&
    decide (intValue v < L.TIMEOUT_UPPER_LIMIT)

/-- Declarative §4.1 rule 6: the verify flag is a boolean. -/
def verify_rule (v : JsonValue) : Bool :=
  isinstance_bool v

/-- All seven §4.1 field rules hold on a document. -/
def allRules (L : Limits) (d : ConfigDoc) : Bool :=
  seed_urls_rule d.seed_urls &&
  num_articles_rule d.total_articles_to_find_and_parse &&
  num_articles_range_rule L d.total_articles_to_find_and_parse &&
  headers_rule d.headers &&
  encoding_rule d.encoding &&
  timeout_rule L d.timeout &&
  verify_rule d.should_verify_certificate

/-! ## Stubbed components

The bodies of `Crawler.__init__`, `Crawler._extract_url`,
`Crawler.find_articles`, `Crawler.get_search_urls`,
`HTMLParser.__init__`, `HTMLParser.unify_date_format` and
`HTMLParser.parse` are docstring-only stubs in the source.  In Python
a docstring-only body is a complete function whose call does nothing
and returns `None`, so each is embedded as the constant `none`. -/

/-- `Crawler.find_articles` (scraper.py lines 220-223): the body is a
docstring-only stub (and `Crawler.__init__`, lines 201-207, is too, so
no discovered-URL collection is ever initialized); the call does
nothing and returns Python `None`. -/
def Crawler.find_articles (_config : Config) : Option (List String) := none

/-- `Crawler.get_search_urls` (scraper.py lines 225-231): docstring-only
stub, returns Python `None`. -/
def Crawler.get_search_urls (_config : Config) : Option (List String) := none

/-- `datetime.datetime` restricted to date-time components (the return
type `HTMLParser.unify_date_format` is annotated with). -/
structure PyDatetime where
  year : Nat
  month : Nat
  day : Nat
  hour : Nat
  minute : Nat
deriving DecidableEq

/-- `HTMLParser.unify_date_format` (scraper.py lines 269-278): the
body is a docstring-only stub, so for every date string the call
returns Python `None` instead of the `datetime.datetime` its
annotation and docstring promise. -/
def HTMLParser.unify_date_format (_date_str : String) : Option PyDatetime :=
  none

/-- The `Article` record (spec §3): id, source URL, text, title,
author (or the `"NOT FOUND"` sentinel), optional normalized date,
topics. -/
structure Article where
  article_id : Nat
  url : String
  text : String
  title : String
  author : String
  date : Option PyDatetime
  topics : List String

/-- The polymorphic return shape of `HTMLParser.parse`
(`Union[Article, bool, list]`). -/
inductive ParseResult where
  | article (a : Article) : ParseResult
  | bool (b : Bool) : ParseResult

/-- `HTMLParser.parse` (scraper.py lines 280-286): the body is a
docstring-only stub (and `HTMLParser.__init__`, lines 243-251, is too,
storing nothing); the call does nothing and returns Python `None` —
never the boolean `False` and never an `Article`. -/
def HTMLParser.parse (_full_url : String) (_article_id : Nat)
    (_config : Config) : Option ParseResult :=
  none

/-! ## Concrete inputs used by counterexamples and witnesses -/

/-- Limits with `NUM_ARTICLES_UPPER_LIMIT = 100` and timeout interval
`(0, 60)` (the spec's §8 concrete scenario). -/
def L0 : Limits := ⟨100, 0, 60⟩

/-- The spec's §8 concrete valid configuration document. -/
def specDoc : ConfigDoc :=
  { seed_urls := .arr [.str "https://example.com/news"]
    total_articles_to_find_and_parse := .int 2
    headers := .obj []
    encoding := .str "utf-8"
    timeout := .int 5
    should_verify_certificate := .bool true
    headless_mode := .bool false }

/-- `specDoc` with the single seed entry replaced by the integer 42. -/
def docIntSeed : ConfigDoc := { specDoc with seed_urls := .arr [.int 42] }

/-- `specDoc` with the single seed entry replaced by the boolean true. -/
def docBoolSeed : ConfigDoc := { specDoc with seed_urls := .arr [.bool true] }

/-- `specDoc` with a seed entry that is a string not matching the
pattern. -/
def docFtpSeed : ConfigDoc :=
  { specDoc with seed_urls := .arr [.str "ftp://example.com"] }

/-- `specDoc` with `timeout` 0. -/
def docTimeout0 : ConfigDoc := { specDoc with timeout := .int 0 }

/-- `specDoc` with a string `timeout`. -/
def docTimeoutStr : ConfigDoc := { specDoc with timeout := .str "x" }

/-- `specDoc` with boolean `total_articles_to_find_and_parse` and
boolean `timeout`. -/
def docBools : ConfigDoc :=
  { specDoc with
    total_articles_to_find_and_parse := .bool true
    timeout := .bool true }

/-- `specDoc` with a string article count. -/
def docTotalStr : ConfigDoc :=
  { specDoc with total_articles_to_find_and_parse := .str "many" }

/-- `specDoc` with an article count exceeding `L0`'s upper limit. -/
def docTotalBig : ConfigDoc :=
  { specDoc with total_articles_to_find_and_parse := .int 1000 }

/-! ## Validation lemmas -/

theorem checkSeedEntries_eq_none_iff (us : List JsonValue) :
    checkSeedEntries us = none ↔ us.all goodSeed = true := by
  induction us with
  | nil => simp [checkSeedEntries]
  | cons u rest ih =>
    cases u with
    | str s =>
      by_cases h : matchesSeedPattern s
      · simp [checkSeedEntries, h, goodSeed, ih]
      · simp [checkSeedEntries, h, goodSeed]
    | null => simp [checkSeedEntries, goodSeed]
    | bool b => simp [checkSeedEntries, goodSeed]
    | int n => simp [checkSeedEntries, goodSeed]
    | float q => simp [checkSeedEntries, goodSeed]
    | arr xs => simp [checkSeedEntries, goodSeed]
    | obj fs => simp [checkSeedEntries, goodSeed]

theorem checkSeedEntries_append (pre post : List JsonValue)
    (hpre : pre.all goodSeed = true) :
    checkSeedEntries (pre ++ post) = checkSeedEntries post := by
  induction pre with
  | nil => simp
  | cons v vs ih =>
    simp only [List.all_cons, Bool.and_eq_true] at hpre
    obtain ⟨hv, hvs⟩ := hpre
    cases v with
    | str s =>
      simp only [goodSeed] at hv
      simpa [checkSeedEntries, hv] using ih hvs
    | null => simp [goodSeed] at hv
    | bool b => simp [goodSeed] at hv
    | int n => simp [goodSeed] at hv
    | float q => simp [goodSeed] at hv
    | arr xs => simp [goodSeed] at hv
    | obj fs => simp [goodSeed] at hv

theorem checkSeedEntries_cons_bad_str (s : String) (post : List JsonValue)
    (h : matchesSeedPattern s = false) :
    checkSeedEntries (.str s :: post) = some .IncorrectSeedURLError := by
  simp [checkSeedEntries, h]

theorem checkSeedEntries_cons_nonstr (u : JsonValue) (post : List JsonValue)
    (h : isinstance_str u = false) :
    checkSeedEntries (u :: post) = some .TypeError := by
  cases u with
  | str s => simp [isinstance_str] at h
  | null => simp [checkSeedEntries]
  | bool b => simp [checkSeedEntries]
  | int n => simp [checkSeedEntries]
  | float q => simp [checkSeedEntries]
  | arr xs => simp [checkSeedEntries]
  | obj fs => simp [checkSeedEntries]

theorem seed_urls_rule_iff (v : JsonValue) :
    seed_urls_rule v = true ↔
      isinstance_list v = true ∧ (jsonItems v).all goodSeed = true := by
  simp [seed_urls_rule]

theorem validate_of_nonlist (L : Limits) (d : ConfigDoc)
    (h : isinstance_list d.seed_urls = false) :
    validate_config_content L d = some .ValueError := by
  simp [validate_config_content, h]

theorem validate_of_seedErr (L : Limits) (d : ConfigDoc) (e : ConfigError)
    (hl : isinstance_list d.seed_urls = true)
    (hc : checkSeedEntries (jsonItems d.seed_urls) = some e) :
    validate_config_content L d = some e := by
  simp [validate_config_content, hl, hc]

theorem validate_num_err (L : Limits) (d : ConfigDoc)
    (hseed : seed_urls_rule d.seed_urls = true)
    (hnum : num_articles_rule d.total_articles_to_find_and_parse = false) :
    validate_config_content L d = some .IncorrectNumberOfArticlesError := by
  obtain ⟨hl, hall⟩ := (seed_urls_rule_iff _).mp hseed
  have hc := (checkSeedEntries_eq_none_iff _).mpr hall
  rw [num_articles_rule] at hnum
  simp [validate_config_content, hl, hc, hnum]

theorem validate_range_err (L : Limits) (d : ConfigDoc)
    (hseed : seed_urls_rule d.seed_urls = true)
    (hnum : num_articles_rule d.total_articles_to_find_and_parse = true)
    (hr : num_articles_range_rule L d.total_articles_to_find_and_parse = false) :
    validate_config_content L d = some .NumberOfArticlesOutOfRangeError := by
  obtain ⟨hl, hall⟩ := (seed_urls_rule_iff _).mp hseed
  have hc := (checkSeedEntries_eq_none_iff _).mpr hall
  rw [num_articles_rule] at hnum
  rw [num_articles_range_rule] at hr
  simp only [decide_eq_false_iff_not, not_le] at hr
  simp [validate_config_content, hl, hc, hnum, hr]

theorem validate_headers_err (L : Limits) (d : ConfigDoc)
    (hseed : seed_urls_rule d.seed_urls = true)
    (hnum : num_articles_rule d.total_articles_to_find_and_parse = true)
    (hr : num_articles_range_rule L d.total_articles_to_find_and_parse = true)
    (hh : headers_rule d.headers = false) :
    validate_config_content L d = some .IncorrectHeadersError := by
  obtain ⟨hl, hall⟩ := (seed_urls_rule_iff _).mp hseed
  have hc := (checkSeedEntries_eq_none_iff _).mpr hall
  rw [num_articles_rule] at hnum
  rw [num_articles_range_rule] at hr
  rw [headers_rule] at hh
  simp only [decide_eq_true_eq] at hr
  simp [validate_config_content, hl, hc, hnum, hh, not_lt.mpr hr]

theorem validate_encoding_err (L : Limits) (d : ConfigDoc)
    (hseed : seed_urls_rule d.seed_urls = true)
    (hnum : num_articles_rule d.total_articles_to_find_and_parse = true)
    (hr : num_articles_range_rule L d.total_articles_to_find_and_parse = true)
    (hh : headers_rule d.headers = true)
    (he : encoding_rule d.encoding = false) :
    validate_config_content L d = some .IncorrectEncodingError := by
  obtain ⟨hl, hall⟩ := (seed_urls_rule_iff _).mp hseed
  have hc := (checkSeedEntries_eq_none_iff _).mpr hall
  rw [num_articles_rule] at hnum
  rw [num_articles_range_rule] at hr
  rw [headers_rule] at hh
  rw [encoding_rule] at he
  simp only [decide_eq_true_eq] at hr
  simp [validate_config_content, hl, hc, hnum, hh, he, not_lt.mpr hr]

theorem validate_timeout_err (L : Limits) (d : ConfigDoc)
    (hseed : seed_urls_rule d.seed_urls = true)
    (hnum : num_articles_rule d.total_articles_to_find_and_parse = true)
    (hr : num_articles_range_rule L d.total_articles_to_find_and_parse = true)
    (hh : headers_rule d.headers = true)
    (he : encoding_rule d.encoding = true)
    (ht : timeout_rule L d.timeout = false) :
    validate_config_content L d = some .IncorrectTimeoutError := by
  obtain ⟨hl, hall⟩ := (seed_urls_rule_iff _).mp hseed
  have hc := (checkSeedEntries_eq_none_iff _).mpr hall
  rw [num_articles_rule] at hnum
  rw [num_articles_range_rule] at hr
  rw [headers_rule] at hh
  rw [encoding_rule] at he
  rw [timeout_rule] at ht
  simp only [decide_eq_true_eq] at hr
  simp [validate_config_content, hl, hc, hnum, hh, he, ht, not_lt.mpr hr]

theorem validate_verify_err (L : Limits) (d : ConfigDoc)
    (hseed : seed_urls_rule d.seed_urls = true)
    (hnum : num_articles_rule d.total_articles_to_find_and_parse = true)
    (hr : num_articles_range_rule L d.total_articles_to_find_and_parse = true)
    (hh : headers_rule d.headers = true)
    (he : encoding_rule d.encoding = true)
    (ht : timeout_rule L d.timeout = true)
    (hv : verify_rule d.should_verify_certificate = false) :
    validate_config_content L d = some .IncorrectVerifyError := by
  obtain ⟨hl, hall⟩ := (seed_urls_rule_iff _).mp hseed
  have hc := (checkSeedEntries_eq_none_iff _).mpr hall
  rw [num_articles_rule] at hnum
  rw [num_articles_range_rule] at hr
  rw [headers_rule] at hh
  rw [encoding_rule] at he
  rw [timeout_rule] at ht
  rw [verify_rule] at hv
  simp only [decide_eq_true_eq] at hr
  simp [validate_config_content, hl, hc, hnum, hh, he, ht, hv, not_lt.mpr hr]

theorem validate_eq_none_iff (L : Limits) (d : ConfigDoc) :
    validate_config_content L d = none ↔ allRules L d = true := by
  constructor
  · intro h
    by_cases hl : isinstance_list d.seed_urls = true
    · cases hc : checkSeedEntries (jsonItems d.seed_urls) with
      | some e => rw [validate_of_seedErr L d e hl hc] at h; exact absurd h (by simp)
      | none =>
        have hall := (checkSeedEntries_eq_none_iff _).mp hc
        rw [validate_config_content] at h
        simp only [hl, Bool.true_eq_false, if_false, hc] at h
        rw [allRules]
        simp only [seed_urls_rule, num_articles_rule, num_articles_range_rule,
          headers_rule, encoding_rule, timeout_rule, verify_rule, hl, hall,
          Bool.true_and, Bool.and_eq_true]
        split at h
        · exact absurd h (by simp)
        · split at h
          · exact absurd h (by simp)
          · split at h
            · exact absurd h (by simp)
            · split at h
              · exact absurd h (by simp)
              · split at h
                · exact absurd h (by simp)
                · split at h
                  · exact absurd h (by simp)
                  · simp_all [not_lt]
    · rw [Bool.not_eq_true] at hl
      rw [validate_of_nonlist L d hl] at h
      exact absurd h (by simp)
  · intro h
    rw [allRules] at h
    simp only [Bool.and_eq_true] at h
    obtain ⟨⟨⟨⟨⟨⟨hseed, hnum⟩, hr⟩, hh⟩, he⟩, ht⟩, hv⟩ := h
    obtain ⟨hl, hall⟩ := (seed_urls_rule_iff _).mp hseed
    have hc := (checkSeedEntries_eq_none_iff _).mpr hall
    rw [num_articles_rule] at hnum
    rw [num_articles_range_rule] at hr
    rw [headers_rule] at hh
    rw [encoding_rule] at he
    rw [timeout_rule] at ht
    rw [verify_rule] at hv
    simp only [decide_eq_true_eq] at hr
    simp [validate_config_content, hl, hc, hnum, hh, he, ht, hv, not_lt.mpr hr]

theorem load_eq_error (L : Limits) (d : ConfigDoc) (e : ConfigError)
    (h : validate_config_content L d = some e) :
    Config.load L d = .error e := by
  unfold Config.load
  rw [h]

theorem load_eq_ok (L : Limits) (d : ConfigDoc)
    (h : validate_config_content L d = none) :
    Config.load L d = .ok ⟨d⟩ := by
  unfold Config.load
  rw [h]

theorem load_error_iff (L : Limits) (d : ConfigDoc) (e : ConfigError) :
    Config.load L d = .error e ↔ validate_config_content L d = some e := by
  unfold Config.load
  cases h : validate_config_content L d with
  | none => simp
  | some e2 => simp

theorem load_ok_iff (L : Limits) (d : ConfigDoc) :
    (∃ c, Config.load L d = .ok c) ↔ validate_config_content L d = none := by
  unfold Config.load
  cases h : validate_config_content L d with
  | none => simp
  | some e2 => simp

theorem load_ok_doc (L : Limits) (d : ConfigDoc) (c : Config)
    (h : Config.load L d = .ok c) : c.doc = d := by
  unfold Config.load at h
  cases hv : validate_config_content L d with
  | none => rw [hv] at h; cases h; rfl
  | some e => rw [hv] at h; cases h

theorem validate_reduce (L : Limits) (d : ConfigDoc)
    (hseed : seed_urls_rule d.seed_urls = true) :
    validate_config_content L d =
      (if num_articles_rule d.total_articles_to_find_and_parse = false then
        some .IncorrectNumberOfArticlesError
      else if num_articles_range_rule L d.total_articles_to_find_and_parse = false then
        some .NumberOfArticlesOutOfRangeError
      else if headers_rule d.headers = false then some .IncorrectHeadersError
      else if encoding_rule d.encoding = false then some .IncorrectEncodingError
      else if timeout_rule L d.timeout = false then some .IncorrectTimeoutError
      else if verify_rule d.should_verify_certificate = false then
        some .IncorrectVerifyError
      else none) := by
  by_cases hnum : num_articles_rule d.total_articles_to_find_and_parse = true
  case neg =>
    rw [Bool.not_eq_true] at hnum
    rw [validate_num_err L d hseed hnum, hnum]
    simp
  by_cases hr : num_articles_range_rule L d.total_articles_to_find_and_parse = true
  case neg =>
    rw [Bool.not_eq_true] at hr
    rw [validate_range_err L d hseed hnum hr, hnum, hr]
    simp
  by_cases hh : headers_rule d.headers = true
  case neg =>
    rw [Bool.not_eq_true] at hh
    rw [validate_headers_err L d hseed hnum hr hh, hnum, hr, hh]
    simp
  by_cases he : encoding_rule d.encoding = true
  case neg =>
    rw [Bool.not_eq_true] at he
    rw [validate_encoding_err L d hseed hnum hr hh he, hnum, hr, hh, he]
    simp
  by_cases ht : timeout_rule L d.timeout = true
  case neg =>
    rw [Bool.not_eq_true] at ht
    rw [validate_timeout_err L d hseed hnum hr hh he ht, hnum, hr, hh, he, ht]
    simp
  by_cases hv : verify_rule d.should_verify_certificate = true
  case neg =>
    rw [Bool.not_eq_true] at hv
    rw [validate_verify_err L d hseed hnum hr hh he ht hv, hnum, hr, hh, he, ht, hv]
    simp
  have hall : allRules L d = true := by
    rw [allRules]
    simp [hseed, hnum, hr, hh, he, ht, hv]
  rw [(validate_eq_none_iff L d).mpr hall, hnum, hr, hh, he, ht, hv]
  simp

theorem validate_seed_pass_ne (L : Limits) (d : ConfigDoc)
    (hseed : seed_urls_rule d.seed_urls = true) :
    validate_config_content L d ≠ some .ValueError ∧
    validate_config_content L d ≠ some .TypeError ∧
    validate_config_content L d ≠ some .IncorrectSeedURLError := by
  rw [validate_reduce L d hseed]
  refine ⟨?_, ?_, ?_⟩ <;> (repeat' split) <;> simp

/-! ## Claim theorems: configuration -/

/-- **C1** counterexample: the §8-valid document with its single seed
entry replaced by the integer 42 violates exactly the seed rule (all
other §4.1 rules hold), yet `load` fails with a generic `TypeError`
(raised by `re.match` on a non-string), not with
`IncorrectSeedURLError` — so the claim's list of specific error kinds
does not cover this single-rule violation. -/
theorem c1_counterexample :
    Config.load L0 docIntSeed = .error .TypeError ∧
    seed_urls_rule docIntSeed.seed_urls = false ∧
    num_articles_rule docIntSeed.total_articles_to_find_and_parse = true ∧
    num_articles_range_rule L0 docIntSeed.total_articles_to_find_and_parse = true ∧
    headers_rule docIntSeed.headers = true ∧
    encoding_rule docIntSeed.encoding = true ∧
    timeout_rule L0 docIntSeed.timeout = true ∧
    verify_rule docIntSeed.should_verify_certificate = true ∧
    ConfigError.TypeError ≠ ConfigError.IncorrectSeedURLError :=
  ⟨rfl, rfl, rfl, rfl, rfl, rfl, rfl, rfl, by decide⟩

/-- **C1** (amended): construction succeeds iff all §4.1 rules hold;
otherwise it fails with the error of the earliest violated rule in the
stated order, where the seed rule's error is refined as the code has
it — generic `ValueError` for a non-list `seed_urls`, generic
`TypeError` for a non-string entry, `IncorrectSeedURLError` for a
string entry not matching the pattern — followed in order by
`IncorrectNumberOfArticlesError`, `NumberOfArticlesOutOfRangeError`,
`IncorrectHeadersError`, `IncorrectEncodingError`,
`IncorrectTimeoutError`, `IncorrectVerifyError`. -/
theorem c1_first_violated_rule_error (L : Limits) (d : ConfigDoc) :
    ((∃ c, Config.load L d = .ok c) ↔ allRules L d = true) ∧
    (isinstance_list d.seed_urls = false →
      Config.load L d = .error .ValueError) ∧
    (∀ pre s post, jsonItems d.seed_urls = pre ++ .str s :: post →
      isinstance_list d.seed_urls = true → pre.all goodSeed = true →
      matchesSeedPattern s = false →
      Config.load L d = .error .IncorrectSeedURLError) ∧
    (∀ pre u post, jsonItems d.seed_urls = pre ++ u :: post →
      isinstance_list d.seed_urls = true → pre.all goodSeed = true →
      isinstance_str u = false →
      Config.load L d = .error .TypeError) ∧
    (seed_urls_rule d.seed_urls = true →
      num_articles_rule d.total_articles_to_find_and_parse = false →
      Config.load L d = .error .IncorrectNumberOfArticlesError) ∧
    (seed_urls_rule d.seed_urls = true →
      num_articles_rule d.total_articles_to_find_and_parse = true →
      num_articles_range_rule L d.total_articles_to_find_and_parse = false →
      Config.load L d = .error .NumberOfArticlesOutOfRangeError) ∧
    (seed_urls_rule d.seed_urls = true →
      num_articles_rule d.total_articles_to_find_and_parse = true →
      num_articles_range_rule L d.total_articles_to_find_and_parse = true →
      headers_rule d.headers = false →
      Config.load L d = .error .IncorrectHeadersError) ∧
    (seed_urls_rule d.seed_urls = true →
      num_articles_rule d.total_articles_to_find_and_parse = true →
      num_articles_range_rule L d.total_articles_to_find_and_parse = true →
      headers_rule d.headers = true → encoding_rule d.encoding = false →
      Config.load L d = .error .IncorrectEncodingError) ∧
    (seed_urls_rule d.seed_urls = true →
      num_articles_rule d.total_articles_to_find_and_parse = true →
      num_articles_range_rule L d.total_articles_to_find_and_parse = true →
      headers_rule d.headers = true → encoding_rule d.encoding = true →
      timeout_rule L d.timeout = false →
      Config.load L d = .error .IncorrectTimeoutError) ∧
    (seed_urls_rule d.seed_urls = true →
      num_articles_rule d.total_articles_to_find_and_parse = true →
      num_articles_range_rule L d.total_articles_to_find_and_parse = true →
      headers_rule d.headers = true → encoding_rule d.encoding = true →
      timeout_rule L d.timeout = true →
      verify_rule d.should_verify_certificate = false →
      Config.load L d = .error .IncorrectVerifyError) := by
  refine ⟨?_, ?_, ?_, ?_, ?_, ?_, ?_, ?_, ?_, ?_⟩
  · rw [load_ok_iff, validate_eq_none_iff]
  · intro h
    exact load_eq_error _ _ _ (validate_of_nonlist L d h)
  · intro pre s post hitems hl hpre hs
    refine load_eq_error _ _ _ (validate_of_seedErr L d _ hl ?_)
    rw [hitems, checkSeedEntries_append pre _ hpre,
      checkSeedEntries_cons_bad_str s post hs]
  · intro pre u post hitems hl hpre hu
    refine load_eq_error _ _ _ (validate_of_seedErr L d _ hl ?_)
    rw [hitems, checkSeedEntries_append pre _ hpre,
      checkSeedEntries_cons_nonstr u post hu]
  · intro hseed hnum
    exact load_eq_error _ _ _ (validate_num_err L d hseed hnum)
  · intro hseed hnum hr
    exact load_eq_error _ _ _ (validate_range_err L d hseed hnum hr)
  · intro hseed hnum hr hh
    exact load_eq_error _ _ _ (validate_headers_err L d hseed hnum hr hh)
  · intro hseed hnum hr hh he
    exact load_eq_error _ _ _ (validate_encoding_err L d hseed hnum hr hh he)
  · intro hseed hnum hr hh he ht
    exact load_eq_error _ _ _ (validate_timeout_err L d hseed hnum hr hh he ht)
  · intro hseed hnum hr hh he ht hv
    exact load_eq_error _ _ _ (validate_verify_err L d hseed hnum hr hh he ht hv)

/-- **C1** witness: at concrete inputs, a document whose only violated
rule is the timeout rule fails with `IncorrectTimeoutError`, and one
whose only violated rule is the seed rule (non-string entry) fails
with `TypeError`. -/
theorem c1_first_violated_rule_error_witness :
    Config.load L0 docTimeoutStr = .error .IncorrectTimeoutError ∧
    Config.load L0 docIntSeed = .error .TypeError :=
  ⟨(c1_first_violated_rule_error L0 docTimeoutStr).2.2.2.2.2.2.2.2.1
      rfl rfl rfl rfl rfl rfl,
   (c1_first_violated_rule_error L0 docIntSeed).2.2.2.1
      [] (.int 42) [] rfl rfl rfl rfl⟩

/-- **C3** counterexample: a seed list whose single entry is the
boolean `true` is a list with a malformed (non-string) entry, yet
`load` fails with a generic `TypeError` (from `re.match`), not with
`IncorrectSeedURLError` as the claim states for non-string entries. -/
theorem c3_counterexample :
    Config.load L0 docBoolSeed = .error .TypeError ∧
    isinstance_list docBoolSeed.seed_urls = true ∧
    ConfigError.TypeError ≠ ConfigError.IncorrectSeedURLError :=
  ⟨rfl, rfl, by decide⟩

/-- **C3** (amended): a non-list `seed_urls` raises the generic
`ValueError`; for a list the entries are scanned in order and the
first offending entry decides the error — a string entry failing the
`https?://(www.)?` match raises `IncorrectSeedURLError`, while a
non-string entry raises a generic `TypeError` (not
`IncorrectSeedURLError`); when every entry is a matching string none
of the seed errors is raised. -/
theorem c3_seed_entry_errors (L : Limits) (d : ConfigDoc) :
    (isinstance_list d.seed_urls = false →
      Config.load L d = .error .ValueError) ∧
    (∀ pre s post, jsonItems d.seed_urls = pre ++ .str s :: post →
      isinstance_list d.seed_urls = true → pre.all goodSeed = true →
      matchesSeedPattern s = false →
      Config.load L d = .error .IncorrectSeedURLError) ∧
    (∀ pre u post, jsonItems d.seed_urls = pre ++ u :: post →
      isinstance_list d.seed_urls = true → pre.all goodSeed = true →
      isinstance_str u = false →
      Config.load L d = .error .TypeError) ∧
    (seed_urls_rule d.seed_urls = true →
      Config.load L d ≠ .error .ValueError ∧
      Config.load L d ≠ .error .TypeError ∧
      Config.load L d ≠ .error .IncorrectSeedURLError) := by
  refine ⟨?_, ?_, ?_, ?_⟩
  · intro h
    exact load_eq_error _ _ _ (validate_of_nonlist L d h)
  · intro pre s post hitems hl hpre hs
    refine load_eq_error _ _ _ (validate_of_seedErr L d _ hl ?_)
    rw [hitems, checkSeedEntries_append pre _ hpre,
      checkSeedEntries_cons_bad_str s post hs]
  · intro pre u post hitems hl hpre hu
    refine load_eq_error _ _ _ (validate_of_seedErr L d _ hl ?_)
    rw [hitems, checkSeedEntries_append pre _ hpre,
      checkSeedEntries_cons_nonstr u post hu]
  · intro hseed
    have h := validate_seed_pass_ne L d hseed
    refine ⟨?_, ?_, ?_⟩ <;> intro hcon
    · exact h.1 ((load_error_iff _ _ _).mp hcon)
    · exact h.2.1 ((load_error_iff _ _ _).mp hcon)
    · exact h.2.2 ((load_error_iff _ _ _).mp hcon)

/-- **C3** witness: a string seed entry not matching the pattern
(`"ftp://example.com"`) makes `load` fail with
`IncorrectSeedURLError`. -/
theorem c3_seed_entry_errors_witness :
    Config.load L0 docFtpSeed = .error .IncorrectSeedURLError :=
  (c3_seed_entry_errors L0 docFtpSeed).2.1
    [] "ftp://example.com" [] rfl rfl rfl rfl

/-- **C4**: once the seed rule passed, an article count failing the
positive-integer test raises `IncorrectNumberOfArticlesError`; a
positive integer strictly above the upper limit raises
`NumberOfArticlesOutOfRangeError`; a positive integer within the
limit raises neither. -/
theorem c4_num_articles_validation (L : Limits) (d : ConfigDoc)
    (hseed : seed_urls_rule d.seed_urls = true) :
    (num_articles_rule d.total_articles_to_find_and_parse = true ↔
      (isinstance_int d.total_articles_to_find_and_parse = true ∧
        0 < intValue d.total_articles_to_find_and_parse)) ∧
    (num_articles_rule d.total_articles_to_find_and_parse = false →
      Config.load L d = .error .IncorrectNumberOfArticlesError) ∧
    (num_articles_rule d.total_articles_to_find_and_parse = true →
      L.NUM_ARTICLES_UPPER_LIMIT < intValue d.total_articles_to_find_and_parse →
      Config.load L d = .error .NumberOfArticlesOutOfRangeError) ∧
    (num_articles_rule d.total_articles_to_find_and_parse = true →
      intValue d.total_articles_to_find_and_parse ≤ L.NUM_ARTICLES_UPPER_LIMIT →
      Config.load L d ≠ .error .IncorrectNumberOfArticlesError ∧
      Config.load L d ≠ .error .NumberOfArticlesOutOfRangeError) := by
  refine ⟨?_, ?_, ?_, ?_⟩
  · simp [num_articles_rule, Bool.and_eq_true, decide_eq_true_eq]
  · intro hnum
    exact load_eq_error _ _ _ (validate_num_err L d hseed hnum)
  · intro hnum hlt
    have hr : num_articles_range_rule L d.total_articles_to_find_and_parse = false := by
      rw [num_articles_range_rule]
      simp [decide_eq_false_iff_not, not_le, hlt]
    exact load_eq_error _ _ _ (validate_range_err L d hseed hnum hr)
  · intro hnum hle
    have hr : num_articles_range_rule L d.total_articles_to_find_and_parse = true := by
      rw [num_articles_range_rule]
      exact decide_eq_true hle
    constructor <;> intro hcon <;>
      (have h2 := (load_error_iff _ _ _).mp hcon
       rw [validate_reduce L d hseed, hnum, hr] at h2
       simp only [Bool.true_eq_false, if_false] at h2
       repeat' split at h2
       all_goals simp_all)

/-- **C4** witness: concretely, a string article count yields
`IncorrectNumberOfArticlesError` and a count of 1000 with upper limit
100 yields `NumberOfArticlesOutOfRangeError`. -/
theorem c4_num_articles_validation_witness :
    Config.load L0 docTotalStr = .error .IncorrectNumberOfArticlesError ∧
    Config.load L0 docTotalBig = .error .NumberOfArticlesOutOfRangeError :=
  ⟨(c4_num_articles_validation L0 docTotalStr rfl).2.1 rfl,
   (c4_num_articles_validation L0 docTotalBig rfl).2.2.1 rfl (by decide)⟩

/-- **C5**: once the earlier rules passed, the timeout rule passes iff
the timeout is an integer strictly between the configured limits (both
exclusive), and `load` fails with `IncorrectTimeoutError` exactly when
that predicate fails. -/
theorem c5_timeout_validation (L : Limits) (d : ConfigDoc)
    (hseed : seed_urls_rule d.seed_urls = true)
    (hnum : num_articles_rule d.total_articles_to_find_and_parse = true)
    (hr : num_articles_range_rule L d.total_articles_to_find_and_parse = true)
    (hh : headers_rule d.headers = true)
    (he : encoding_rule d.encoding = true) :
    (timeout_rule L d.timeout = true ↔
      (isinstance_int d.timeout = true ∧
        L.TIMEOUT_LOWER_LIMIT < intValue d.timeout ∧
        intValue d.timeout < L.TIMEOUT_UPPER_LIMIT)) ∧
    (Config.load L d = .error .IncorrectTimeoutError ↔
      timeout_rule L d.timeout = false) := by
  constructor
  · simp [timeout_rule, Bool.and_eq_true, decide_eq_true_eq, and_assoc]
  · rw [load_error_iff, validate_reduce L d hseed, hnum, hr, hh, he]
    constructor
    · intro h2
      by_cases ht : timeout_rule L d.timeout = true
      · rw [ht] at h2
        simp only [Bool.true_eq_false, if_false] at h2
        repeat' split at h2
        all_goals simp_all
      · rwa [Bool.not_eq_true] at ht
    · intro ht
      rw [ht]
      simp

/-- **C5** witness: with limits `(0, 60)`, `timeout: 0` yields
`IncorrectTimeoutError` and `timeout: 5` is accepted. -/
theorem c5_timeout_validation_witness :
    Config.load L0 docTimeout0 = .error .IncorrectTimeoutError ∧
    Config.load L0 specDoc ≠ .error .IncorrectTimeoutError :=
  ⟨(c5_timeout_validation L0 docTimeout0 rfl rfl rfl rfl rfl).2.mpr rfl,
   fun hcon =>
     absurd ((c5_timeout_validation L0 specDoc rfl rfl rfl rfl rfl).2.mp hcon)
       (by decide)⟩

/-- **C6**: a `Config` is all-or-nothing — any successfully
constructed instance holds exactly the source document and that
document satisfies every §4.1 rule; a fully valid document always
constructs; and a document violating some rule always fails
construction (validation is eager, inside construction). -/
theorem c6_all_or_nothing (L : Limits) (d : ConfigDoc) :
    (∀ c, Config.load L d = .ok c → c.doc = d ∧ allRules L c.doc = true) ∧
    (allRules L d = true → Config.load L d = .ok ⟨d⟩) ∧
    (allRules L d = false → ∃ e, Config.load L d = .error e) := by
  refine ⟨?_, ?_, ?_⟩
  · intro c hc
    have hdoc := load_ok_doc L d c hc
    have hnone : validate_config_content L d = none :=
      (load_ok_iff L d).mp ⟨c, hc⟩
    exact ⟨hdoc, by rw [hdoc]; exact (validate_eq_none_iff L d).mp hnone⟩
  · intro hall
    exact load_eq_ok L d ((validate_eq_none_iff L d).mpr hall)
  · intro hfail
    cases hv : validate_config_content L d with
    | some e => exact ⟨e, load_eq_error L d e hv⟩
    | none => exact absurd ((validate_eq_none_iff L d).mp hv) (by simp [hfail])

/-- **C6** witness: the §8-valid concrete document constructs, and the
constructed instance carries that document. -/
theorem c6_all_or_nothing_witness :
    Config.load L0 specDoc = .ok ⟨specDoc⟩ :=
  (c6_all_or_nothing L0 specDoc).2.1 rfl

/-- **C10**: Python's `bool` is a subclass of `int`, so the embedded
`isinstance` int test accepts booleans; a document whose article count
is the boolean `true` (numeric value 1){and whose timeout is a boolean
with numeric value strictly inside the limits} passes validation and
constructs, provided the remaining fields satisfy their rules and the
upper limit is at least 1. -/
theorem c10_bool_passes_int_checks (L : Limits) (d : ConfigDoc) (b : Bool)
    (hseed : seed_urls_rule d.seed_urls = true)
    (htot : d.total_articles_to_find_and_parse = .bool true)
    (hlim : 1 ≤ L.NUM_ARTICLES_UPPER_LIMIT)
    (hh : headers_rule d.headers = true)
    (he : encoding_rule d.encoding = true)
    (htim : d.timeout = .bool b)
    (hlo : L.TIMEOUT_LOWER_LIMIT < intValue (.bool b))
    (hhi : intValue (.bool b) < L.TIMEOUT_UPPER_LIMIT)
    (hv : verify_rule d.should_verify_certificate = true) :
    Config.load L d = .ok ⟨d⟩ ∧
    isinstance_int (.bool true) = true ∧ isinstance_int (.bool b) = true := by
  refine ⟨?_, rfl, by cases b <;> rfl⟩
  have hall : allRules L d = true := by
    rw [allRules, htot, htim]
    simp only [intValue] at hlo hhi
    simp [num_articles_rule, num_articles_range_rule, timeout_rule,
      isinstance_int, intValue, hseed, hh, he, hv, hlim, hlo, hhi]
  exact load_eq_ok L d ((validate_eq_none_iff L d).mpr hall)

/-- **C10** witness: with limits `(0, 60)` and upper article limit
100, the document with `total_articles_to_find_and_parse: true` and
`timeout: true` loads successfully. -/
theorem c10_bool_passes_int_checks_witness :
    Config.load L0 docBools = .ok ⟨docBools⟩ :=
  (c10_bool_passes_int_checks L0 docBools true rfl rfl (by decide) rfl rfl rfl
    (by decide) (by decide) rfl).1

/-- **C2** (code bug evaluated): the spec's §8 valid document loads
successfully, yet every accessor of the constructed `Config` returns
Python `None` — the accessor bodies are docstring-only stubs and
`__init__`'s call to `_extract_config_content` is commented out — even
though the implemented-but-never-called `_extract_config_content`
would deliver exactly the document's values. -/
theorem c2_accessors_return_none :
    Config.load L0 specDoc = .ok ⟨specDoc⟩ ∧
    Config.get_seed_urls ⟨specDoc⟩ = none ∧
    Config.get_num_articles ⟨specDoc⟩ = none ∧
    Config.get_headers ⟨specDoc⟩ = none ∧
    Config.get_encoding ⟨specDoc⟩ = none ∧
    Config.get_timeout ⟨specDoc⟩ = none ∧
    Config.get_verify_certificate ⟨specDoc⟩ = none ∧
    Config.get_headless_mode ⟨specDoc⟩ = none ∧
    (Config.extract_config_content ⟨specDoc⟩).seed_urls =
      .arr [.str "https://example.com/news"] ∧
    (Config.extract_config_content ⟨specDoc⟩).total_articles_to_find_and_parse =
      .int 2 ∧
    (Config.extract_config_content ⟨specDoc⟩).encoding = .str "utf-8" :=
  ⟨rfl, rfl, rfl, rfl, rfl, rfl, rfl, rfl, rfl, rfl, rfl⟩

/-! ## Claim theorems: crawler and parser -/

/-- **C7** (code bug evaluated): `find_articles` is an unimplemented
stub — called on the spec's §8 configuration (whose seed page would
contribute the two matching article links) it does nothing and returns
Python `None`, never the claimed capped deduplicated URL collection. -/
theorem c7_find_articles_stub :
    Crawler.find_articles ⟨specDoc⟩ = none ∧
    Crawler.find_articles ⟨specDoc⟩ ≠
      some ["https://example.com/a/1", "https://example.com/a/2"] ∧
    Crawler.get_search_urls ⟨specDoc⟩ = none :=
  ⟨rfl, fun hcon => Option.noConfusion hcon, rfl⟩

/-- **C8** (code bug evaluated): `parse` is an unimplemented stub — at
the article URL of the spec's §8 scenario it returns Python `None`
whatever the fetch outcome: never the boolean `False` the claim
requires on a fetch failure, and never an `Article`. -/
theorem c8_parse_stub :
    HTMLParser.parse "https://example.com/a/1" 1 ⟨specDoc⟩ = none ∧
    HTMLParser.parse "https://example.com/a/1" 1 ⟨specDoc⟩ ≠
      some (.bool false) ∧
    HTMLParser.parse "https://example.com/a/1" 1 ⟨specDoc⟩ ≠
      some (.bool true) :=
  ⟨rfl, fun hcon => Option.noConfusion hcon, fun hcon => Option.noConfusion hcon⟩

/-- **C9** (code bug evaluated): `unify_date_format` is an
unimplemented stub — it returns Python `None` for the canonical string
`"2024-03-15 00:00"` and for the localized form `"15 March 2024"`
alike, so it never returns an already-canonical value unchanged and
never maps any recognized source format to a canonical date-time.
(Purity and determinism hold trivially of the constant stub.) -/
theorem c9_unify_date_format_stub :
    HTMLParser.unify_date_format "2024-03-15 00:00" = none ∧
    HTMLParser.unify_date_format "15 March 2024" = none ∧
    HTMLParser.unify_date_format "2024-03-15 00:00" ≠
      some ⟨2024, 3, 15, 0, 0⟩ :=
  ⟨rfl, rfl, fun hcon => Option.noConfusion hcon⟩

end Scraper
